import Mathlib

/-!
Shallow embedding of the valuation pipeline of `src/app.py`
(the "Capital Investor" Airbnb analytics dashboard).

Python floats are modelled as exact rationals (`ℚ`), Python ints as `ℤ`
or `Nat`.  Fallible operations return `Except AppError`.  The parts of
the pipeline implemented by external libraries (the scikit-learn
`RandomForestRegressor`) are modelled from the spec, as marked on their
doc comments; everything else is translated directly from `src/app.py`.
-/

namespace App

/-- Error taxonomy of the spec (§7): dataset file missing, schema
mismatch on extraction, empty/mismatched training data. -/
inductive AppError where
  | DatasetNotFound
  | MissingColumn
  | InsufficientData
deriving DecidableEq, Repr

/- ----------------------------------------------------------------
   Financial Projector (src/app.py lines 133-134 and 143)
     occupancy = 0.65
     revenue = pred_price * 30 * occupancy
     "Implied Asset Value" metric: revenue * 12 * 15
   ---------------------------------------------------------------- -/

/-- `occupancy = 0.65` (src/app.py line 133). -/
def occupancy : ℚ := 0.65

/-- `revenue = pred_price * 30 * occupancy` (src/app.py line 134). -/
def revenue (pred_price : ℚ) : ℚ := pred_price * 30 * occupancy

/-- The "Implied Asset Value" metric, `revenue * 12 * 15`
(src/app.py line 143). -/
def impliedAssetValue (rev : ℚ) : ℚ := rev * 12 * 15

/- ----------------------------------------------------------------
   Advisory Rule (src/app.py lines 147-152)
   ---------------------------------------------------------------- -/

/-- The three advisory outcomes of the if/elif/else at
src/app.py lines 147-152. -/
inductive RecommendationTag where
  | PRIME_LOCATION
  | VOLUME_STRATEGY
  | BALANCED
deriving DecidableEq, Repr

/-- The AI Advisor branch structure (src/app.py lines 147-152):
`if dist < 1.0` / `elif dist > 4.0` / `else`. -/
def advise (dist : ℚ) : RecommendationTag :=
  if dist < 1 then .PRIME_LOCATION
  else if dist > 4 then .VOLUME_STRATEGY
  else .BALANCED

/-- The recommendation text written in each branch
(src/app.py lines 148, 150, 152). -/
def adviceTextFor : RecommendationTag → String
  | .PRIME_LOCATION => "This property is in a **High-Traffic Tourist Zone**. Prioritize luxury amenities (e.g., high-end coffee machine, premium linens) to justify the premium rate."
  | .VOLUME_STRATEGY => "This property is in a **Residential/Commuter Zone**. Compete on price and offer \x27Work-from-Home\x27 setups (fast WiFi, monitors) to attract long-term stays."
  | .BALANCED => "This is a **Balanced Location**. Ideal for families. Stock the property with family-friendly gear (cribs, games) to maximize occupancy."

/-- One user-input event on the Property Specs panel
(src/app.py lines 120-123): the four widget values. -/
structure UserInput where
  beds : ℤ
  guests : ℤ
  dist : ℚ
  reviews : ℤ
deriving DecidableEq, Repr

/-- The recommendation text selected for a user-input event: the
if/elif/else at src/app.py lines 147-152 tests `dist` only. -/
def adviceText (u : UserInput) : String :=
  if u.dist < 1 then adviceTextFor .PRIME_LOCATION
  else if u.dist > 4 then adviceTextFor .VOLUME_STRATEGY
  else adviceTextFor .BALANCED

/- ----------------------------------------------------------------
   User input surface (src/app.py lines 120-123)
   ---------------------------------------------------------------- -/

/-- A streamlit `st.slider(label, min, max, default)` over integers
accepts exactly the values between its bounds. -/
def sliderAcceptsInt (lo hi : ℤ) (v : ℤ) : Prop := lo ≤ v ∧ v ≤ hi

/-- A streamlit `st.slider(label, min, max, default)` over floats
accepts exactly the values between its bounds. -/
def sliderAcceptsFloat (lo hi : ℚ) (v : ℚ) : Prop := lo ≤ v ∧ v ≤ hi

/-- A streamlit `st.number_input(label, ...)` accepts any value within
its optional bounds; with no `min_value`/`max_value` it is unbounded. -/
def numberInputAccepts (lo hi : Option ℤ) (v : ℤ) : Prop :=
  (∀ m, lo = some m → m ≤ v) ∧ (∀ m, hi = some m → v ≤ m)

/-- `beds = st.slider("Bedrooms", 1, 6, 2)` (src/app.py line 120). -/
def bedroomsAccepts (v : ℤ) : Prop := sliderAcceptsInt 1 6 v

/-- `guests = st.slider("Guest Capacity", 1, 12, 4)` (line 121). -/
def guestsAccepts (v : ℤ) : Prop := sliderAcceptsInt 1 12 v

/-- `dist = st.slider("Distance to Mall (Miles)", 0.1, 10.0, 1.5)`
(line 122). -/
def distAccepts (v : ℚ) : Prop := sliderAcceptsFloat 0.1 10.0 v

/-- `reviews = st.number_input("Est. Review Count", value=50)`
(line 123): no `min_value` and no `max_value` are passed. -/
def reviewsAccepts (v : ℤ) : Prop := numberInputAccepts none none v

/-- The `input_data` feature vector built verbatim from the four widget
values (src/app.py lines 126-131). -/
def inputVector (u : UserInput) : List ℚ :=
  [(u.beds : ℚ), (u.guests : ℚ), u.dist, (u.reviews : ℚ)]

/- ----------------------------------------------------------------
   Dataset Loader (src/app.py lines 27-36)
   ---------------------------------------------------------------- -/

/-- An in-memory table, column-oriented: a list of named columns of
rationals (the pandas DataFrame produced by `pd.read_csv`). -/
abbrev DataFrame := List (String × List ℚ)

/-- Column lookup, as pandas `df[c]`: `none` when the column is
absent (pandas raises `KeyError`). -/
def getCol (df : DataFrame) (c : String) : Option (List ℚ) :=
  (df.find? (fun p => p.1 == c)).map Prod.snd

/-- The hard-coded dataset path (src/app.py line 29). -/
def datasetPath : String := "clean_airbnb_dc.csv"

/-- `load_data` (src/app.py lines 27-30): reads the CSV at the fixed
path from the file system `fs`; a path that does not resolve raises
`FileNotFoundError`, modelled as the spec error `DatasetNotFound`. -/
def load_data (fs : String → Option DataFrame) : Except AppError DataFrame :=
  match fs datasetPath with
  | some df => .ok df
  | none => .error .DatasetNotFound

/-- Startup outcome of the script: the `try/except FileNotFoundError`
around `load_data()` (src/app.py lines 32-36) either proceeds with the
loaded dataframe or shows `st.error(...)` and calls `st.stop()`. -/
inductive AppStartup where
  | halted (diagnostic : String)
  | running (df : DataFrame)
deriving DecidableEq, Repr

/-- The startup control flow of src/app.py lines 32-36. -/
def appStartup (fs : String → Option DataFrame) : AppStartup :=
  match load_data fs with
  | .ok df => .running df
  | .error _ => .halted "⚠️ File \x27clean_airbnb_dc.csv\x27 not found."

/- ----------------------------------------------------------------
   Feature Extractor (src/app.py lines 41-43)
   ---------------------------------------------------------------- -/

/-- `features = ['bedrooms', 'accommodates', 'dist_to_mall',
'number_of_reviews']` (src/app.py line 41). -/
def features : List String :=
  ["bedrooms", "accommodates", "dist_to_mall", "number_of_reviews"]

/-- Row-align four columns into one feature vector per record, in the
fixed column order of `features`. -/
def zip4 : List ℚ → List ℚ → List ℚ → List ℚ → List (List ℚ)
  | b :: bs, g :: gs, d :: ds, r :: rs => [b, g, d, r] :: zip4 bs gs ds rs
  | _, _, _, _ => []

/-- `X = df[features]; y = df['price']` (src/app.py lines 42-43):
projects the dataframe to the four predictor columns and the target
column; a missing column raises pandas `KeyError`, modelled as the
spec error `MissingColumn`. -/
def extract (df : DataFrame) : Except AppError (List (List ℚ) × List ℚ) :=
  match getCol df "bedrooms", getCol df "accommodates",
        getCol df "dist_to_mall", getCol df "number_of_reviews",
        getCol df "price" with
  | some b, some g, some d, some r, some p => .ok (zip4 b g d r, p)
  | _, _, _, _, _ => .error .MissingColumn

/- ----------------------------------------------------------------
   Price Model.  `RandomForestRegressor(n_estimators=50,
   random_state=42)` (src/app.py lines 44-46) is a scikit-learn
   estimator whose code is not part of this repository; the
   definitions below are modelled from the spec (§4.3): a
   deterministic bootstrap-aggregated ensemble of regression trees.
   ---------------------------------------------------------------- -/

/-- One training record: its feature vector and its target. -/
abbrev Sample := List ℚ × ℚ

/-- Arithmetic mean of a list of rationals (0 for the empty list). -/
def mean (l : List ℚ) : ℚ := l.sum / (l.length : ℚ)

/-- Modelled from the spec: a fitted regression tree (spec §4.3,
"ensemble-of-regression-trees"; the tree learner itself lives in the
external library). -/
inductive DTree where
  | leaf (value : ℚ)
  | node (feature : Nat) (threshold : ℚ) (left right : DTree)
deriving DecidableEq, Repr

/-- Modelled from the spec: single-row tree inference — walk left when
the tested feature is at most the threshold, else right. -/
def DTree.predict : DTree → List ℚ → ℚ
  | .leaf v, _ => v
  | .node j thr l r, x => if x.getD j 0 ≤ thr then l.predict x else r.predict x

/-- Sum of squared errors of a list of targets around their mean (the
CART impurity criterion for regression). -/
def sse (ts : List ℚ) : ℚ := (ts.map (fun t => (t - mean ts) ^ 2)).sum

/-- Insert into a sorted list of rationals. -/
def insertSorted (x : ℚ) : List ℚ → List ℚ
  | [] => [x]
  | y :: ys => if x ≤ y then x :: y :: ys else y :: insertSorted x ys

/-- Insertion sort for rationals. -/
def sortQ (l : List ℚ) : List ℚ := l.foldr insertSorted []

/-- Midpoints between consecutive values of a list (the candidate
thresholds of a CART split on a sorted column). -/
def midpoints : List ℚ → List ℚ
  | a :: b :: rest => (a + b) / 2 :: midpoints (b :: rest)
  | _ => []

/-- The values of feature column `j` across the training data. -/
def columnVals (data : List Sample) (j : Nat) : List ℚ :=
  data.map (fun row => row.1.getD j 0)

/-- Number of feature columns of the training data. -/
def nFeatures (data : List Sample) : Nat := (data.headD ([], 0)).1.length

/-- All candidate splits `(feature, threshold)`: for each feature, the
midpoints between consecutive distinct sorted values of its column. -/
def splitCandidates (data : List Sample) : List (Nat × ℚ) :=
  (List.range (nFeatures data)).flatMap (fun j =>
    (midpoints ((sortQ (columnVals data j)).dedup)).map (fun t => (j, t)))

/-- CART score of a candidate split: summed squared error of the two
sides it induces (lower is better). -/
def splitScore (data : List Sample) (j : Nat) (thr : ℚ) : ℚ :=
  sse ((data.filter (fun row => decide (row.1.getD j 0 ≤ thr))).map Prod.snd) +
  sse ((data.filter (fun row => decide (thr < row.1.getD j 0))).map Prod.snd)

/-- Modelled from the spec: the split chosen by the external tree
learner — the candidate of minimal summed squared error. -/
def bestSplit (data : List Sample) : Option (Nat × ℚ) :=
  ((splitCandidates data).foldl (fun acc c =>
      let s := splitScore data c.1 c.2
      match acc with
      | none => some (c, s)
      | some (c₀, s₀) => if s < s₀ then some (c, s) else some (c₀, s₀))
    none).map Prod.fst

/-- Modelled from the spec: fit one regression tree by recursive
best-split partitioning; a node is a leaf when it is pure, too small
to split, or no split separates it.  `fuel` bounds the depth; any ply
loses at least one sample, so `data.length` is always enough. -/
def fitTree : Nat → List Sample → DTree
  | 0, data => .leaf (mean (data.map Prod.snd))
  | fuel + 1, data =>
    if data.length < 2 ∨ (data.map Prod.snd).dedup.length ≤ 1 then
      .leaf (mean (data.map Prod.snd))
    else
      match bestSplit data with
      | none => .leaf (mean (data.map Prod.snd))
      | some (j, thr) =>
        if (data.filter (fun row => decide (row.1.getD j 0 ≤ thr))).length = 0 ∨
           (data.filter (fun row => decide (thr < row.1.getD j 0))).length = 0 then
          .leaf (mean (data.map Prod.snd))
        else
          .node j thr
            (fitTree fuel (data.filter (fun row => decide (row.1.getD j 0 ≤ thr))))
            (fitTree fuel (data.filter (fun row => decide (thr < row.1.getD j 0))))

/-- A step of the pseudo-random generator driving the bootstrap
resampling (deterministic in the seed). -/
def lcgNext (s : Nat) : Nat :=
  (6364136223846793005 * s + 1442695040888963407) % 2 ^ 64

/-- `count` pseudo-random indices below `n`, driven by the seed. -/
def sampleIndices : Nat → Nat → Nat → List Nat
  | 0, _, _ => []
  | k + 1, s, n => (lcgNext s % n) :: sampleIndices k (lcgNext s) n

/-- Modelled from the spec: a bootstrap resample of the training data
— `n` draws with replacement, deterministic in the seed (spec §4.3,
"bootstrap-aggregated decision trees ... fixed random seed"). -/
def bootstrap (seed : Nat) (data : List Sample) : List Sample :=
  (sampleIndices data.length seed data.length).map
    (fun i => data.getD i ([], 0))

/-- The estimator configuration: `RandomForestRegressor(n_estimators=50,
random_state=42)` (src/app.py line 44). -/
structure RandomForestRegressor where
  n_estimators : Nat
  random_state : Nat
deriving DecidableEq, Repr

/-- Modelled from the spec: the fitted ensemble — one tree per
bootstrap resample, seeds derived deterministically from
`random_state`. -/
def fitForest (rf : RandomForestRegressor) (data : List Sample) : List DTree :=
  (List.range rf.n_estimators).map
    (fun k => fitTree data.length (bootstrap (rf.random_state + k) data))

/-- Modelled from the spec: `model.fit(X, y)` — fails with
`InsufficientData` when `X`/`y` are empty or mismatched in length
(spec §4.3), otherwise returns the fitted ensemble. -/
def RandomForestRegressor.fit (rf : RandomForestRegressor)
    (X : List (List ℚ)) (y : List ℚ) : Except AppError (List DTree) :=
  if X.length = 0 ∨ y.length = 0 ∨ X.length ≠ y.length then
    .error .InsufficientData
  else
    .ok (fitForest rf (X.zip y))

/-- Modelled from the spec: `model.predict(input_data)[0]` — the mean
of the individual tree predictions. -/
def forestPredict (trees : List DTree) (x : List ℚ) : ℚ :=
  mean (trees.map (fun t => t.predict x))

/-- The estimator constructed at src/app.py line 44. -/
def price_model_config : RandomForestRegressor :=
  { n_estimators := 50, random_state := 42 }

/-- `train_model` (src/app.py lines 40-46): extract features and
target, then fit the forest. -/
def train_model (df : DataFrame) : Except AppError (List DTree) :=
  match extract df with
  | .error e => .error e
  | .ok (X, y) => price_model_config.fit X y

/-- End-to-end scenario 1 of the spec (§8): the three-row dataset's
feature matrix. -/
def scenario1X : List (List ℚ) :=
  [[1, 2, 0.5, 10], [2, 4, 2.0, 50], [3, 6, 5.0, 100]]

/-- End-to-end scenario 1 of the spec (§8): the target prices. -/
def scenario1y : List ℚ := [100, 200, 300]

/-- End-to-end scenario 1 of the spec (§8), as a loaded dataframe. -/
def scenario1DF : DataFrame :=
  [("bedrooms", [1, 2, 3]), ("accommodates", [2, 4, 6]),
   ("dist_to_mall", [0.5, 2.0, 5.0]), ("number_of_reviews", [10, 50, 100]),
   ("price", [100, 200, 300])]

end App

/- ----------------------------------------------------------------
   Theorems
   ---------------------------------------------------------------- -/

namespace App

/-- C1: the Financial Projector computes
`monthly_revenue = p × 30 × 0.65` and
`asset_value = monthly_revenue × 12 × 15`; in particular
`predicted_price = 150` yields `monthly_revenue = 2925` and
`asset_value = 526500`. -/
theorem financial_projector_formulas :
    (∀ p : ℚ, revenue p = p * 30 * (13 / 20) ∧
      impliedAssetValue (revenue p) = revenue p * 12 * 15) ∧
    revenue 150 = 2925 ∧ impliedAssetValue (revenue 150) = 526500 := by
  refine ⟨fun p => ⟨?_, rfl⟩, by norm_num [revenue, occupancy], by
    norm_num [revenue, impliedAssetValue, occupancy]⟩
  show p * 30 * occupancy = p * 30 * (13 / 20)
  norm_num [occupancy]

/-- C2: the Advisory Rule is total with exactly three outcomes:
`PRIME_LOCATION` iff `dist < 1`, `VOLUME_STRATEGY` iff `dist > 4`,
`BALANCED` iff `1 ≤ dist ≤ 4`; in particular both boundary values
map to `BALANCED`. -/
theorem advisory_rule_boundaries :
    (∀ d : ℚ,
      (advise d = .PRIME_LOCATION ↔ d < 1) ∧
      (advise d = .VOLUME_STRATEGY ↔ 4 < d) ∧
      (advise d = .BALANCED ↔ 1 ≤ d ∧ d ≤ 4)) ∧
    advise 0.999 = .PRIME_LOCATION ∧ advise 1 = .BALANCED ∧
    advise 4 = .BALANCED ∧ advise 4.001 = .VOLUME_STRATEGY := by
  refine ⟨fun d => ?_, by norm_num [advise], by norm_num [advise],
    by norm_num [advise], by norm_num [advise]⟩
  unfold advise
  rcases lt_or_le d 1 with h1 | h1
  · rw [if_pos h1]
    refine ⟨⟨fun _ => h1, fun _ => rfl⟩,
            ⟨fun h => RecommendationTag.noConfusion h, fun h4 => absurd h1 (by linarith)⟩,
            ⟨fun h => RecommendationTag.noConfusion h, fun h => absurd h1 (not_lt.mpr h.1)⟩⟩
  · rcases le_or_lt d 4 with h4 | h4
    · rw [if_neg (not_lt.mpr h1), if_neg (not_lt.mpr h4)]
      refine ⟨⟨fun h => RecommendationTag.noConfusion h, fun h => absurd h (not_lt.mpr h1)⟩,
              ⟨fun h => RecommendationTag.noConfusion h, fun h => absurd h (not_lt.mpr h4)⟩,
              ⟨fun _ => ⟨h1, h4⟩, fun _ => rfl⟩⟩
    · rw [if_neg (not_lt.mpr h1), if_pos h4]
      refine ⟨⟨fun h => RecommendationTag.noConfusion h, fun h => absurd h (by linarith)⟩,
              ⟨fun _ => h4, fun _ => rfl⟩,
              ⟨fun h => RecommendationTag.noConfusion h, fun h => absurd h4 (not_lt.mpr h.2)⟩⟩

/-- C3: the Financial Projector is linear in the predicted price:
for all `p ≥ 0`, `revenue (2p) = 2 · revenue p`, and
`asset_value = 180 · monthly_revenue` exactly. -/
theorem financial_projector_linear (p : ℚ) (_hp : 0 ≤ p) :
    revenue (2 * p) = 2 * revenue p ∧
    impliedAssetValue (revenue p) = 180 * revenue p := by
  unfold revenue impliedAssetValue
  constructor <;> ring

/-- Witness for C3 at `p = 150`. -/
theorem financial_projector_linear_witness :
    revenue (2 * 150) = 2 * revenue 150 ∧
    impliedAssetValue (revenue 150) = 180 * revenue 150 :=
  financial_projector_linear 150 (by norm_num)

/-- C10: the advisory recommendation depends only on the distance
input: two user-input events with equal distance select the same
recommendation text, whatever their bedrooms, guest capacity, or
review count. -/
theorem advice_depends_only_on_distance (u₁ u₂ : UserInput)
    (h : u₁.dist = u₂.dist) : adviceText u₁ = adviceText u₂ := by
  unfold adviceText
  rw [h]

/-- Witness for C10: two concrete events differing in every field but
distance. -/
theorem advice_depends_only_on_distance_witness :
    adviceText ⟨1, 2, 3, 4⟩ = adviceText ⟨6, 12, 3, 999⟩ :=
  advice_depends_only_on_distance ⟨1, 2, 3, 4⟩ ⟨6, 12, 3, 999⟩ rfl

/-- C5: a path that does not resolve makes the loader fail with
`DatasetNotFound`; startup halts with a user-visible diagnostic and
never proceeds to a running state, so no partial dataset is retained. -/
theorem loader_missing_file (fs : String → Option DataFrame)
    (h : fs datasetPath = none) :
    load_data fs = .error .DatasetNotFound ∧
    appStartup fs = .halted "⚠️ File \x27clean_airbnb_dc.csv\x27 not found." ∧
    ∀ df, appStartup fs ≠ .running df := by
  have hl : load_data fs = .error .DatasetNotFound := by
    unfold load_data
    rw [h]
  refine ⟨hl, ?_, ?_⟩
  · unfold appStartup
    rw [hl]
  · intro df
    unfold appStartup
    rw [hl]
    intro hcon
    exact AppStartup.noConfusion hcon

/-- Witness for C5: the empty file system resolves no path. -/
theorem loader_missing_file_witness :
    load_data (fun _ => none) = .error .DatasetNotFound ∧
    appStartup (fun _ => none) =
      .halted "⚠️ File \x27clean_airbnb_dc.csv\x27 not found." ∧
    ∀ df, appStartup (fun _ => none) ≠ .running df :=
  loader_missing_file (fun _ => none) rfl

/-- `zip4` of four lists of equal length has that common length. -/
theorem zip4_length (b : List ℚ) : ∀ (g d r : List ℚ),
    g.length = b.length → d.length = b.length → r.length = b.length →
    (zip4 b g d r).length = b.length := by
  induction b with
  | nil =>
    intro g d r hg _ _
    cases g
    · rfl
    · exact absurd hg (by simp)
  | cons x bs ih =>
    intro g d r hg hd hr
    cases g with
    | nil => exact absurd hg (by simp)
    | cons y gs =>
      cases d with
      | nil => exact absurd hd (by simp)
      | cons z ds =>
        cases r with
        | nil => exact absurd hr (by simp)
        | cons w rs =>
          simp only [zip4, List.length_cons] at *
          exact congrArg Nat.succ (ih gs ds rs (by omega) (by omega) (by omega))

/-- Element `i` of `zip4` is the four `i`-th entries in column order. -/
theorem zip4_getElem (b : List ℚ) : ∀ (g d r : List ℚ) (i : Nat)
    (x₁ x₂ x₃ x₄ : ℚ), b[i]? = some x₁ → g[i]? = some x₂ →
    d[i]? = some x₃ → r[i]? = some x₄ →
    (zip4 b g d r)[i]? = some [x₁, x₂, x₃, x₄] := by
  induction b with
  | nil =>
    intro g d r i x₁ x₂ x₃ x₄ h₁ _ _ _
    simp at h₁
  | cons x bs ih =>
    intro g d r i x₁ x₂ x₃ x₄ h₁ h₂ h₃ h₄
    cases g with
    | nil => simp at h₂
    | cons y gs =>
      cases d with
      | nil => simp at h₃
      | cons z ds =>
        cases r with
        | nil => simp at h₄
        | cons w rs =>
          cases i with
          | zero =>
            simp only [List.getElem?_cons_zero, Option.some.injEq] at h₁ h₂ h₃ h₄
            simp [zip4, h₁, h₂, h₃, h₄]
          | succ n =>
            simp only [List.getElem?_cons_succ] at h₁ h₂ h₃ h₄
            simpa [zip4] using ih gs ds rs n x₁ x₂ x₃ x₄ h₁ h₂ h₃ h₄

/-- C4: with all required columns present and of equal length, the
Feature Extractor returns `X` with one vector per record in the fixed
order `[bedrooms, accommodates, dist_to_mall, number_of_reviews]` and
`y` as the aligned price column; a dataframe missing any required
column makes it fail with `MissingColumn`. -/
theorem extractor_spec (df : DataFrame) (b g d r p : List ℚ)
    (hb : getCol df "bedrooms" = some b)
    (hg : getCol df "accommodates" = some g)
    (hd : getCol df "dist_to_mall" = some d)
    (hr : getCol df "number_of_reviews" = some r)
    (hp : getCol df "price" = some p)
    (hlg : g.length = b.length) (hld : d.length = b.length)
    (hlr : r.length = b.length) (hlp : p.length = b.length) :
    (∃ X, extract df = .ok (X, p) ∧ X.length = b.length ∧
      p.length = b.length ∧
      (∀ (i : Nat) (x₁ x₂ x₃ x₄ : ℚ), b[i]? = some x₁ → g[i]? = some x₂ →
        d[i]? = some x₃ → r[i]? = some x₄ →
        X[i]? = some [x₁, x₂, x₃, x₄])) ∧
    (∀ df' : DataFrame,
      (getCol df' "bedrooms" = none ∨ getCol df' "accommodates" = none ∨
       getCol df' "dist_to_mall" = none ∨
       getCol df' "number_of_reviews" = none ∨
       getCol df' "price" = none) →
      extract df' = .error .MissingColumn) := by
  constructor
  · refine ⟨zip4 b g d r, ?_, zip4_length b g d r hlg hld hlr, hlp,
      fun i x₁ x₂ x₃ x₄ h₁ h₂ h₃ h₄ =>
        zip4_getElem b g d r i x₁ x₂ x₃ x₄ h₁ h₂ h₃ h₄⟩
    unfold extract
    rw [hb, hg, hd, hr, hp]
  · intro df' h
    rcases e₁ : getCol df' "bedrooms" with _ | b' <;>
    rcases e₂ : getCol df' "accommodates" with _ | g' <;>
    rcases e₃ : getCol df' "dist_to_mall" with _ | d' <;>
    rcases e₄ : getCol df' "number_of_reviews" with _ | r' <;>
    rcases e₅ : getCol df' "price" with _ | p' <;>
      (simp only [extract, e₁, e₂, e₃, e₄, e₅];
       try rcases h with h | h | h | h | h) <;> simp_all

/-- Witness for C4: a concrete one-record dataframe with all required
columns. -/
theorem extractor_spec_witness :
    (∃ X, extract [("bedrooms", [1]), ("accommodates", [2]),
        ("dist_to_mall", [0.5]), ("number_of_reviews", [10]),
        ("price", [100])] = .ok (X, [100]) ∧
      X.length = ([1] : List ℚ).length ∧
      ([100] : List ℚ).length = ([1] : List ℚ).length ∧
      (∀ (i : Nat) (x₁ x₂ x₃ x₄ : ℚ), ([1] : List ℚ)[i]? = some x₁ →
        ([2] : List ℚ)[i]? = some x₂ → ([0.5] : List ℚ)[i]? = some x₃ →
        ([10] : List ℚ)[i]? = some x₄ →
        X[i]? = some [x₁, x₂, x₃, x₄])) ∧
    (∀ df' : DataFrame,
      (getCol df' "bedrooms" = none ∨ getCol df' "accommodates" = none ∨
       getCol df' "dist_to_mall" = none ∨
       getCol df' "number_of_reviews" = none ∨
       getCol df' "price" = none) →
      extract df' = .error .MissingColumn) :=
  extractor_spec _ [1] [2] [0.5] [10] [100] rfl rfl rfl rfl rfl rfl rfl
    rfl rfl

/-- C7: `fit` fails with `InsufficientData` exactly when `X` or `y`
is empty or their lengths differ. -/
theorem fit_insufficient_data (rf : RandomForestRegressor)
    (X : List (List ℚ)) (y : List ℚ) :
    rf.fit X y = .error .InsufficientData ↔
      X = [] ∨ y = [] ∨ X.length ≠ y.length := by
  unfold RandomForestRegressor.fit
  split
  · next h =>
    simp only [true_iff]
    rcases h with h | h | h
    · exact Or.inl (List.length_eq_zero.mp h)
    · exact Or.inr (Or.inl (List.length_eq_zero.mp h))
    · exact Or.inr (Or.inr h)
  · next h =>
    push_neg at h
    simp only [reduceCtorEq, false_iff]
    push_neg
    exact ⟨fun hX => absurd (by rw [hX]; rfl) h.1,
      fun hy => absurd (by rw [hy]; rfl) h.2.1, h.2.2⟩

/-- Witness for C7: fitting on empty data errors out. -/
theorem fit_insufficient_data_witness :
    price_model_config.fit [] [] = .error .InsufficientData :=
  (fit_insufficient_data price_model_config [] []).mpr (Or.inl rfl)

/-- The mean of a nonempty list is at least any common lower bound. -/
theorem le_mean (l : List ℚ) (hne : l ≠ []) (lo : ℚ) (h : ∀ x ∈ l, lo ≤ x) :
    lo ≤ mean l := by
  have hlen : 0 < (l.length : ℚ) := by
    exact_mod_cast List.length_pos.mpr hne
  rw [mean, le_div_iff₀ hlen]
  have hs := List.card_nsmul_le_sum l lo h
  rw [nsmul_eq_mul] at hs
  rw [mul_comm]
  exact hs

/-- The mean of a nonempty list is at most any common upper bound. -/
theorem mean_le (l : List ℚ) (hne : l ≠ []) (hi : ℚ) (h : ∀ x ∈ l, x ≤ hi) :
    mean l ≤ hi := by
  have hlen : 0 < (l.length : ℚ) := by
    exact_mod_cast List.length_pos.mpr hne
  rw [mean, div_le_iff₀ hlen]
  have hs := List.sum_le_card_nsmul l hi h
  rw [nsmul_eq_mul] at hs
  rw [mul_comm]
  exact hs

/-- Leaf value bound, lower side: the mean of the targets of a
nonempty node respects a common lower bound. -/
theorem le_leafMean (data : List Sample) (hne : data ≠ []) (lo : ℚ)
    (h : ∀ s ∈ data, lo ≤ s.2) : lo ≤ mean (data.map Prod.snd) := by
  apply le_mean
  · simpa using hne
  · intro x hx
    obtain ⟨s, hs, rfl⟩ := List.mem_map.mp hx
    exact h s hs

/-- Leaf value bound, upper side. -/
theorem leafMean_le (data : List Sample) (hne : data ≠ []) (hi : ℚ)
    (h : ∀ s ∈ data, s.2 ≤ hi) : mean (data.map Prod.snd) ≤ hi := by
  apply mean_le
  · simpa using hne
  · intro x hx
    obtain ⟨s, hs, rfl⟩ := List.mem_map.mp hx
    exact h s hs

/-- A fitted tree predicts at least any common lower bound of the
training targets: every leaf holds a mean of a nonempty subset. -/
theorem le_fitTree_predict (fuel : Nat) :
    ∀ (data : List Sample), data ≠ [] → ∀ (lo : ℚ),
    (∀ s ∈ data, lo ≤ s.2) → ∀ (x : List ℚ),
    lo ≤ (fitTree fuel data).predict x := by
  induction fuel with
  | zero =>
    intro data hne lo h x
    exact le_leafMean data hne lo h
  | succ fuel ih =>
    intro data hne lo h x
    rw [fitTree]
    split
    · exact le_leafMean data hne lo h
    · split
      · exact le_leafMean data hne lo h
      · split
        · exact le_leafMean data hne lo h
        · next j thr hguard =>
          rw [DTree.predict]
          push_neg at hguard
          split
          · apply ih
            · intro hnil
              exact hguard.1 (by rw [hnil]; rfl)
            · intro s hs
              exact h s (List.mem_filter.mp hs).1
          · apply ih
            · intro hnil
              exact hguard.2 (by rw [hnil]; rfl)
            · intro s hs
              exact h s (List.mem_filter.mp hs).1

/-- A fitted tree predicts at most any common upper bound of the
training targets. -/
theorem fitTree_predict_le (fuel : Nat) :
    ∀ (data : List Sample), data ≠ [] → ∀ (hi : ℚ),
    (∀ s ∈ data, s.2 ≤ hi) → ∀ (x : List ℚ),
    (fitTree fuel data).predict x ≤ hi := by
  induction fuel with
  | zero =>
    intro data hne hi h x
    exact leafMean_le data hne hi h
  | succ fuel ih =>
    intro data hne hi h x
    rw [fitTree]
    split
    · exact leafMean_le data hne hi h
    · split
      · exact leafMean_le data hne hi h
      · split
        · exact leafMean_le data hne hi h
        · next j thr hguard =>
          rw [DTree.predict]
          push_neg at hguard
          split
          · apply ih
            · intro hnil
              exact hguard.1 (by rw [hnil]; rfl)
            · intro s hs
              exact h s (List.mem_filter.mp hs).1
          · apply ih
            · intro hnil
              exact hguard.2 (by rw [hnil]; rfl)
            · intro s hs
              exact h s (List.mem_filter.mp hs).1

/-- `sampleIndices` draws exactly `count` indices. -/
theorem sampleIndices_length (k : Nat) : ∀ (s n : Nat),
    (sampleIndices k s n).length = k := by
  induction k with
  | zero => intro s n; rfl
  | succ k ih => intro s n; simp [sampleIndices, ih]

/-- Every drawn index is below `n` when `n` is positive. -/
theorem sampleIndices_lt (k : Nat) : ∀ (s n : Nat), n ≠ 0 →
    ∀ i ∈ sampleIndices k s n, i < n := by
  induction k with
  | zero =>
    intro s n _ i hi
    simp [sampleIndices] at hi
  | succ k ih =>
    intro s n hn i hi
    rw [sampleIndices] at hi
    rcases List.mem_cons.mp hi with h | h
    · exact h ▸ Nat.mod_lt _ (Nat.pos_of_ne_zero hn)
    · exact ih (lcgNext s) n hn i h

/-- A bootstrap resample of nonempty data is nonempty. -/
theorem bootstrap_ne_nil (seed : Nat) (data : List Sample)
    (hne : data ≠ []) : bootstrap seed data ≠ [] := by
  have hlen : (bootstrap seed data).length = data.length := by
    rw [bootstrap, List.length_map, sampleIndices_length]
  intro hnil
  rw [hnil] at hlen
  exact hne (List.length_eq_zero.mp hlen.symm)

/-- Every record of a bootstrap resample is a record of the data. -/
theorem mem_bootstrap (seed : Nat) (data : List Sample) (hne : data ≠ [])
    (s : Sample) (hs : s ∈ bootstrap seed data) : s ∈ data := by
  rw [bootstrap] at hs
  obtain ⟨i, hi, rfl⟩ := List.mem_map.mp hs
  have hn : data.length ≠ 0 :=
    Nat.pos_iff_ne_zero.mp (List.length_pos.mpr hne)
  have hlt : i < data.length :=
    sampleIndices_lt data.length seed data.length hn i hi
  rw [List.getD_eq_getElem _ _ hlt]
  exact List.getElem_mem hlt

/-- The fitted forest predicts at least any common lower bound of the
training targets. -/
theorem le_forestPredict (rf : RandomForestRegressor) (data : List Sample)
    (hne : data ≠ []) (hn : rf.n_estimators ≠ 0) (lo : ℚ)
    (h : ∀ s ∈ data, lo ≤ s.2) (x : List ℚ) :
    lo ≤ forestPredict (fitForest rf data) x := by
  rw [forestPredict]
  apply le_mean
  · simp only [fitForest, List.map_map, ne_eq, List.map_eq_nil_iff,
      List.range_eq_nil]
    exact hn
  · intro v hv
    simp only [fitForest, List.map_map, List.mem_map, Function.comp] at hv
    obtain ⟨k, _, rfl⟩ := hv
    apply le_fitTree_predict
    · exact bootstrap_ne_nil _ _ hne
    · intro s hs
      exact h s (mem_bootstrap _ _ hne s hs)

/-- The fitted forest predicts at most any common upper bound of the
training targets. -/
theorem forestPredict_le (rf : RandomForestRegressor) (data : List Sample)
    (hne : data ≠ []) (hn : rf.n_estimators ≠ 0) (hi : ℚ)
    (h : ∀ s ∈ data, s.2 ≤ hi) (x : List ℚ) :
    forestPredict (fitForest rf data) x ≤ hi := by
  rw [forestPredict]
  apply mean_le
  · simp only [fitForest, List.map_map, ne_eq, List.map_eq_nil_iff,
      List.range_eq_nil]
    exact hn
  · intro v hv
    simp only [fitForest, List.map_map, List.mem_map, Function.comp] at hv
    obtain ⟨k, _, rfl⟩ := hv
    apply fitTree_predict_le
    · exact bootstrap_ne_nil _ _ hne
    · intro s hs
      exact h s (mem_bootstrap _ _ hne s hs)

/-- Inversion of a successful `fit`: the inputs were nonempty and
aligned, and the result is the fitted ensemble of the zipped data. -/
theorem fit_ok_inv (rf : RandomForestRegressor) (X : List (List ℚ))
    (y : List ℚ) (trees : List DTree) (h : rf.fit X y = .ok trees) :
    X ≠ [] ∧ y ≠ [] ∧ X.length = y.length ∧
    trees = fitForest rf (X.zip y) := by
  rw [RandomForestRegressor.fit] at h
  split at h
  · exact absurd h (by simp)
  · next hc =>
    push_neg at hc
    refine ⟨fun hX => hc.1 (by rw [hX]; rfl),
      fun hy => hc.2.1 (by rw [hy]; rfl), hc.2.2, ?_⟩
    exact (Except.ok.inj h).symm

/-- The zip of two nonempty lists is nonempty. -/
theorem zip_ne_nil {α β : Type} (l₁ : List α) (l₂ : List β)
    (h₁ : l₁ ≠ []) (h₂ : l₂ ≠ []) : l₁.zip l₂ ≠ [] :=
  List.length_pos.mp (by
    rw [List.length_zip]
    exact lt_min (List.length_pos.mpr h₁) (List.length_pos.mpr h₂))

/-- A successfully fitted model of the app configuration predicts at
least any common lower bound of the training targets. -/
theorem model_predict_lower (X : List (List ℚ)) (y : List ℚ)
    (trees : List DTree) (v : List ℚ) (lo : ℚ)
    (hfit : price_model_config.fit X y = .ok trees)
    (hy : ∀ t ∈ y, lo ≤ t) : lo ≤ forestPredict trees v := by
  obtain ⟨hX, hy', _, rfl⟩ := fit_ok_inv _ _ _ _ hfit
  apply le_forestPredict
  · exact zip_ne_nil X y hX hy'
  · decide
  · intro s hs
    obtain ⟨a, b⟩ := s
    exact hy b (List.of_mem_zip hs).2

/-- A successfully fitted model of the app configuration predicts at
most any common upper bound of the training targets. -/
theorem model_predict_upper (X : List (List ℚ)) (y : List ℚ)
    (trees : List DTree) (v : List ℚ) (hi : ℚ)
    (hfit : price_model_config.fit X y = .ok trees)
    (hy : ∀ t ∈ y, t ≤ hi) : forestPredict trees v ≤ hi := by
  obtain ⟨hX, hy', _, rfl⟩ := fit_ok_inv _ _ _ _ hfit
  apply forestPredict_le
  · exact zip_ne_nil X y hX hy'
  · decide
  · intro s hs
    obtain ⟨a, b⟩ := s
    exact hy b (List.of_mem_zip hs).2

/-- C8: with nonnegative training targets, every prediction of the
fitted model is nonnegative (and, over `ℚ`, finite); in particular on
the 3-row scenario dataset with prices 100, 200, 300, the prediction
for `(2, 4, 2.0, 50)` lies between 100 and 300. -/
theorem predict_nonneg_and_interpolation :
    (∀ (X : List (List ℚ)) (y : List ℚ) (trees : List DTree) (v : List ℚ),
      price_model_config.fit X y = .ok trees → (∀ t ∈ y, 0 ≤ t) →
      0 ≤ forestPredict trees v) ∧
    (∃ trees, price_model_config.fit scenario1X scenario1y = .ok trees ∧
      100 ≤ forestPredict trees [2, 4, 2, 50] ∧
      forestPredict trees [2, 4, 2, 50] ≤ 300) := by
  have hfit : price_model_config.fit scenario1X scenario1y =
      .ok (fitForest price_model_config (scenario1X.zip scenario1y)) := by
    rw [RandomForestRegressor.fit]
    norm_num [scenario1X, scenario1y]
  refine ⟨fun X y trees v hf hy => model_predict_lower X y trees v 0 hf hy,
    fitForest price_model_config (scenario1X.zip scenario1y), hfit, ?_, ?_⟩
  · apply model_predict_lower _ _ _ _ _ hfit
    intro t ht
    simp only [scenario1y, List.mem_cons, List.not_mem_nil, or_false] at ht
    rcases ht with rfl | rfl | rfl <;> norm_num
  · apply model_predict_upper _ _ _ _ _ hfit
    intro t ht
    simp only [scenario1y, List.mem_cons, List.not_mem_nil, or_false] at ht
    rcases ht with rfl | rfl | rfl <;> norm_num

/-- Witness for C8: the general nonnegativity conjunct applied to a
concrete one-record training set. -/
theorem predict_nonneg_and_interpolation_witness :
    0 ≤ forestPredict
      (fitForest price_model_config ([[(1 : ℚ)]].zip [5])) [0] :=
  predict_nonneg_and_interpolation.1 [[1]] [5]
    (fitForest price_model_config ([[(1 : ℚ)]].zip [5])) [0] rfl
    (by norm_num)

/-- A successful `train_model` yields one tree per configured
estimator. -/
theorem train_model_ok_length (df : DataFrame) (trees : List DTree)
    (h : train_model df = .ok trees) :
    trees.length = price_model_config.n_estimators := by
  rw [train_model] at h
  split at h
  · exact absurd h (by simp)
  · obtain ⟨_, _, _, rfl⟩ := fit_ok_inv _ _ _ _ h
    rw [fitForest, List.length_map, List.length_range]

/-- C6: the Price Model is the estimator configured with 50 trees and
seed 42, and fitting is deterministic — two runs of `train_model` on
the same dataframe agree, a successful fit has exactly 50 trees, and
predictions from the two runs coincide on every feature vector. -/
theorem model_fit_deterministic (df : DataFrame)
    (m₁ m₂ : Except AppError (List DTree))
    (h₁ : train_model df = m₁) (h₂ : train_model df = m₂) :
    m₁ = m₂ ∧
    price_model_config.n_estimators = 50 ∧
    price_model_config.random_state = 42 ∧
    (∀ trees, m₁ = .ok trees → trees.length = 50) ∧
    (∀ trees₁ trees₂ v, m₁ = .ok trees₁ → m₂ = .ok trees₂ →
      forestPredict trees₁ v = forestPredict trees₂ v) := by
  subst h₁
  subst h₂
  refine ⟨rfl, rfl, rfl, ?_, ?_⟩
  · intro trees htrees
    exact train_model_ok_length df trees htrees
  · intro trees₁ trees₂ v ht₁ ht₂
    rw [ht₁] at ht₂
    rw [Except.ok.inj ht₂]

/-- Witness for C6: two runs on the concrete scenario dataframe. -/
theorem model_fit_deterministic_witness :
    train_model scenario1DF = train_model scenario1DF ∧
    price_model_config.n_estimators = 50 ∧
    price_model_config.random_state = 42 ∧
    (∀ trees, train_model scenario1DF = .ok trees → trees.length = 50) ∧
    (∀ trees₁ trees₂ v, train_model scenario1DF = .ok trees₁ →
      train_model scenario1DF = .ok trees₂ →
      forestPredict trees₁ v = forestPredict trees₂ v) :=
  model_fit_deterministic scenario1DF (train_model scenario1DF)
    (train_model scenario1DF) rfl rfl

/-- C9 counterexample: the claim says the review-count input is
constrained to integers `≥ 0`, but `st.number_input` at src/app.py
line 123 passes no `min_value`, so the surface accepts `-1`. -/
theorem review_count_unconstrained :
    ¬ (∀ v : ℤ, reviewsAccepts v → 0 ≤ v) := by
  intro hclaim
  have h : reviewsAccepts (-1) :=
    ⟨fun m hm => Option.noConfusion hm, fun m hm => Option.noConfusion hm⟩
  exact absurd (hclaim (-1) h) (by decide)

/-- C9 amended: bedrooms is an integer in `[1, 6]`, guest capacity an
integer in `[1, 12]`, distance a float in `[0.1, 10.0]`, while the
review count is an integer with no range constraint at all; the four
values are fed verbatim into the Feature Vector. -/
theorem input_surface_ranges :
    (∀ v : ℤ, bedroomsAccepts v ↔ 1 ≤ v ∧ v ≤ 6) ∧
    (∀ v : ℤ, guestsAccepts v ↔ 1 ≤ v ∧ v ≤ 12) ∧
    (∀ v : ℚ, distAccepts v ↔ 1 / 10 ≤ v ∧ v ≤ 10) ∧
    (∀ v : ℤ, reviewsAccepts v) ∧
    (∀ u : UserInput,
      inputVector u = [(u.beds : ℚ), (u.guests : ℚ), u.dist, (u.reviews : ℚ)]) := by
  refine ⟨fun v => Iff.rfl, fun v => Iff.rfl, fun v => ?_,
    fun v => ⟨fun m hm => Option.noConfusion hm,
      fun m hm => Option.noConfusion hm⟩,
    fun u => rfl⟩
  unfold distAccepts sliderAcceptsFloat
  norm_num

end App
